import Mathlib

set_option linter.unusedVariables false

/-!
Verification of the configuration-resolution contract of tacxtv/rustmine.

The repository's single source file, src/nuxt.config.ts, is a static
configuration object literal.  Its literal contents are embedded below as
`nuxtConfig`.  The specification describes, around that object, a
configuration resolver `resolve(raw, defaults)` that validates a sparse raw
input against the schema of `ConfigurationSnapshot`, merges it with a
defaults snapshot, and either produces a snapshot or fails with the first
validation error.  That resolver is not part of src/, so it is modelled
here from the specification and the claims are settled against the model.
-/

/-- An action button rendered on a notification: icon and color identifiers. -/
structure ActionSpec where
  icon : String
  color : String
  deriving Repr, DecidableEq

/-- Notification position enum: nine placements. -/
inductive NotifyPosition where
  | topLeft | topRight | bottomLeft | bottomRight
  | top | bottom | left | right | center
  deriving Repr, DecidableEq

/-- Render mode enum: server pre-rendering plus client, or client only. -/
inductive RenderMode where
  | serverClient | clientOnly
  deriving Repr, DecidableEq

/-- Theme mode enum for the UI plugin. -/
inductive Theme where
  | light | dark | auto
  deriving Repr, DecidableEq

/-- Notification defaults: timeout in milliseconds (non-negative; 0 means
never auto-dismiss), position, and default action buttons. -/
structure NotificationDefaults where
  timeoutMillis : Nat
  position : NotifyPosition
  actions : List ActionSpec
  deriving Repr, DecidableEq

/-- Nested configuration for the bundled UI component plugin. -/
structure UiPluginConfig where
  iconSet : String
  activePlugins : List String
  theme : Theme
  notification : NotificationDefaults
  deriving Repr, DecidableEq

/-- The resolved, immutable configuration snapshot. -/
structure ConfigurationSnapshot where
  sourceDirectory : String
  stylesheets : List String
  renderMode : RenderMode
  enabledModules : List String
  uiPlugin : UiPluginConfig
  deriving Repr, DecidableEq

/-- Raw configuration input: a nested literal data value (the shape an
external loader hands to the resolver). -/
inductive Value where
  | str : String → Value
  | int : Int → Value
  | bool : Bool → Value
  | list : List Value → Value
  | obj : List (String × Value) → Value
  deriving Repr

/-- The error kinds of section 7 of the specification. -/
inductive ConfigError where
  | unknownKeyError : List String → ConfigError
  | invalidEnumValueError : List String → String → List String → ConfigError
  | invalidTypeError : List String → String → ConfigError
  deriving Repr, DecidableEq

/-- First binding of a key in an object literal. -/
def lookupKey (kvs : List (String × Value)) (k : String) : Option Value :=
  match kvs with
  | [] => none
  | (k₁, v) :: rest => if k₁ = k then some v else lookupKey rest k

/-- Known keys of the top-level raw object (the snapshot fields). -/
def knownTopKeys : List String :=
  ["sourceDirectory", "stylesheets", "renderMode", "enabledModules", "uiPlugin"]

/-- Known keys of the uiPlugin raw object. -/
def knownUiKeys : List String :=
  ["iconSet", "activePlugins", "theme", "notification"]

/-- Known keys of the notification raw object. -/
def knownNotifKeys : List String :=
  ["timeoutMillis", "position", "actions"]

/-- Known keys of an action object. -/
def knownActionKeys : List String :=
  ["icon", "color"]

/-- Checks the keys of one object level against its known-field list,
failing with the first unknown key. -/
def checkObjKeys (path : List String) (known : List String) :
    List (String × Value) → Except ConfigError Unit
  | [] => .ok ()
  | (k, _) :: rest =>
    if known.contains k then checkObjKeys path known rest
    else .error (.unknownKeyError (path ++ [k]))

/-- Key validation of a single action element (when it is an object). -/
def checkActionKeys (path : List String) (v : Value) : Except ConfigError Unit :=
  match v with
  | .obj kvs => checkObjKeys path knownActionKeys kvs
  | _ => .ok ()

/-- Key validation of the elements of an actions sequence. -/
def checkActionsKeys (path : List String) (i : Nat) :
    List Value → Except ConfigError Unit
  | [] => .ok ()
  | v :: rest => do
    checkActionKeys (path ++ [toString i]) v
    checkActionsKeys path (i + 1) rest

/-- Key validation of a raw notification value at all depths. -/
def checkNotifKeys (path : List String) (v : Value) : Except ConfigError Unit :=
  match v with
  | .obj kvs => do
    checkObjKeys path knownNotifKeys kvs
    match lookupKey kvs "actions" with
    | some (.list vs) => checkActionsKeys (path ++ ["actions"]) 0 vs
    | _ => .ok ()
  | _ => .ok ()

/-- Key validation of a raw uiPlugin value at all depths. -/
def checkUiKeys (path : List String) (v : Value) : Except ConfigError Unit :=
  match v with
  | .obj kvs => do
    checkObjKeys path knownUiKeys kvs
    match lookupKey kvs "notification" with
    | some w => checkNotifKeys (path ++ ["notification"]) w
    | none => .ok ()
  | _ => .ok ()

/-- Modelled from the spec: behavior step 1 of the resolver, key
validation — every key present in raw at every nesting level must be a
known field of the target shape; the first unknown key fails with
UnknownKeyError(path). -/
def checkTopKeys (kvs : List (String × Value)) : Except ConfigError Unit := do
  checkObjKeys [] knownTopKeys kvs
  match lookupKey kvs "uiPlugin" with
  | some w => checkUiKeys ["uiPlugin"] w
  | none => .ok ()

/-- Parses a leaf that must be a string. -/
def parseString (path : List String) : Value → Except ConfigError String
  | .str s => .ok s
  | _ => .error (.invalidTypeError path "string")

/-- Parses the elements of a sequence of strings, failing on the first
non-string element. -/
def parseStringElems (path : List String) : List Value → Except ConfigError (List String)
  | [] => .ok []
  | .str s :: rest => do
    let r ← parseStringElems path rest
    .ok (s :: r)
  | _ :: _ => .error (.invalidTypeError path "string")

/-- Parses a sequence-of-strings leaf. -/
def parseStringList (path : List String) : Value → Except ConfigError (List String)
  | .list vs => parseStringElems path vs
  | _ => .error (.invalidTypeError path "sequence of string")

/-- Drops the elements already seen, keeping the first occurrence of each
remaining element so that insertion order is preserved. -/
def dedupAcc (seen : List String) : List String → List String
  | [] => []
  | x :: xs =>
    if seen.contains x then dedupAcc seen xs
    else x :: dedupAcc (x :: seen) xs

/-- Collapses duplicates, keeping the first occurrence of each element so
that insertion order is preserved. -/
def dedupFirst (l : List String) : List String :=
  dedupAcc [] l

/-- Parses a set-of-strings leaf: a sequence whose duplicate entries
collapse with no error, first occurrence kept. -/
def parseStringSet (path : List String) (v : Value) : Except ConfigError (List String) := do
  let l ← parseStringList path v
  .ok (dedupFirst l)

/-- Parses the renderMode enum leaf. -/
def parseRenderMode (path : List String) : Value → Except ConfigError RenderMode
  | .str s =>
    if s = "serverClient" then .ok .serverClient
    else if s = "clientOnly" then .ok .clientOnly
    else .error (.invalidEnumValueError path s ["serverClient", "clientOnly"])
  | _ => .error (.invalidTypeError path "string")

/-- Parses the theme enum leaf. -/
def parseTheme (path : List String) : Value → Except ConfigError Theme
  | .str s =>
    if s = "light" then .ok .light
    else if s = "dark" then .ok .dark
    else if s = "auto" then .ok .auto
    else .error (.invalidEnumValueError path s ["light", "dark", "auto"])
  | _ => .error (.invalidTypeError path "string")

/-- The allowed string literals of the position enum. -/
def positionLiterals : List String :=
  ["topLeft", "topRight", "bottomLeft", "bottomRight",
   "top", "bottom", "left", "right", "center"]

/-- Parses the notification position enum leaf. -/
def parsePosition (path : List String) : Value → Except ConfigError NotifyPosition
  | .str s =>
    if s = "topLeft" then .ok .topLeft
    else if s = "topRight" then .ok .topRight
    else if s = "bottomLeft" then .ok .bottomLeft
    else if s = "bottomRight" then .ok .bottomRight
    else if s = "top" then .ok .top
    else if s = "bottom" then .ok .bottom
    else if s = "left" then .ok .left
    else if s = "right" then .ok .right
    else if s = "center" then .ok .center
    else .error (.invalidEnumValueError path s positionLiterals)
  | _ => .error (.invalidTypeError path "string")

/-- Parses the timeoutMillis leaf: an integer that must be non-negative. -/
def parseTimeout (path : List String) : Value → Except ConfigError Nat
  | .int n =>
    if 0 ≤ n then .ok n.toNat
    else .error (.invalidTypeError path "non-negative integer")
  | _ => .error (.invalidTypeError path "non-negative integer")

/-- Parses one action element: an object with icon and color, both
non-empty strings. -/
def parseAction (path : List String) (v : Value) : Except ConfigError ActionSpec :=
  match v with
  | .obj kvs =>
    match lookupKey kvs "icon", lookupKey kvs "color" with
    | some (.str i), some (.str c) =>
      if i = "" then .error (.invalidTypeError (path ++ ["icon"]) "non-empty string")
      else if c = "" then .error (.invalidTypeError (path ++ ["color"]) "non-empty string")
      else .ok ⟨i, c⟩
    | _, _ => .error (.invalidTypeError path "action with icon and color strings")
  | _ => .error (.invalidTypeError path "object")

/-- Parses the elements of an actions sequence, failing on the first
malformed element. -/
def parseActionElems (path : List String) (i : Nat) :
    List Value → Except ConfigError (List ActionSpec)
  | [] => .ok []
  | v :: rest => do
    let a ← parseAction (path ++ [toString i]) v
    let r ← parseActionElems path (i + 1) rest
    .ok (a :: r)

/-- Parses an actions sequence leaf. -/
def parseActions (path : List String) : Value → Except ConfigError (List ActionSpec)
  | .list vs => parseActionElems path 0 vs
  | _ => .error (.invalidTypeError path "sequence of action")

/-- Resolves one field: the default when the key is absent, the parsed raw
value when present. -/
def resolveField {α : Type} (kvs : List (String × Value)) (k : String)
    (parse : Value → Except ConfigError α) (dflt : α) : Except ConfigError α :=
  match lookupKey kvs k with
  | none => .ok dflt
  | some v => parse v

/-- Modelled from the spec: deep merge of a raw notification object with
the notification defaults. -/
def resolveNotification (path : List String) (v : Value) (d : NotificationDefaults) :
    Except ConfigError NotificationDefaults :=
  match v with
  | .obj kvs => do
    let t ← resolveField kvs "timeoutMillis" (parseTimeout (path ++ ["timeoutMillis"])) d.timeoutMillis
    let p ← resolveField kvs "position" (parsePosition (path ++ ["position"])) d.position
    let a ← resolveField kvs "actions" (parseActions (path ++ ["actions"])) d.actions
    .ok ⟨t, p, a⟩
  | _ => .error (.invalidTypeError path "object")

/-- Modelled from the spec: deep merge of a raw uiPlugin object with the
uiPlugin defaults. -/
def resolveUiPlugin (path : List String) (v : Value) (d : UiPluginConfig) :
    Except ConfigError UiPluginConfig :=
  match v with
  | .obj kvs => do
    let is ← resolveField kvs "iconSet" (parseString (path ++ ["iconSet"])) d.iconSet
    let ap ← resolveField kvs "activePlugins" (parseStringSet (path ++ ["activePlugins"])) d.activePlugins
    let th ← resolveField kvs "theme" (parseTheme (path ++ ["theme"])) d.theme
    let nf ← resolveField kvs "notification"
      (fun w => resolveNotification (path ++ ["notification"]) w d.notification) d.notification
    .ok ⟨is, ap, th, nf⟩
  | _ => .error (.invalidTypeError path "object")

/-- Modelled from the spec: the configuration resolver, absent from src/.
It first validates every key at every nesting level, then validates
types and enums while deep-merging the raw input over the defaults,
failing fast on the first detected error, and otherwise produces the
resolved snapshot. -/
def resolve (raw : Value) (defaults : ConfigurationSnapshot) :
    Except ConfigError ConfigurationSnapshot :=
  match raw with
  | .obj kvs => do
    checkTopKeys kvs
    let sd ← resolveField kvs "sourceDirectory" (parseString ["sourceDirectory"]) defaults.sourceDirectory
    let ss ← resolveField kvs "stylesheets" (parseStringList ["stylesheets"]) defaults.stylesheets
    let rm ← resolveField kvs "renderMode" (parseRenderMode ["renderMode"]) defaults.renderMode
    let em ← resolveField kvs "enabledModules" (parseStringSet ["enabledModules"]) defaults.enabledModules
    let up ← resolveField kvs "uiPlugin"
      (fun w => resolveUiPlugin ["uiPlugin"] w defaults.uiPlugin) defaults.uiPlugin
    .ok ⟨sd, ss, rm, em, up⟩
  | _ => .error (.invalidTypeError [] "object")

/-- Modelled from the spec: a concrete framework-defaults snapshot with
renderMode serverClient (the only default value the spec pins down; the
rest are unconstrained placeholders). -/
def frameworkDefaults : ConfigurationSnapshot where
  sourceDirectory := "app/"
  stylesheets := ["base.css"]
  renderMode := .serverClient
  enabledModules := []
  uiPlugin :=
    { iconSet := "material-icons"
      activePlugins := []
      theme := .auto
      notification :=
        { timeoutMillis := 5000
          position := .bottom
          actions := [] } }

/-- The devtools sub-object of the source configuration. -/
structure DevtoolsOptions where
  enabled : Bool
  deriving Repr, DecidableEq

/-- The quasar.config.notify sub-object of the source configuration. -/
structure NotifyOptions where
  timeout : Nat
  position : String
  actions : List ActionSpec
  deriving Repr, DecidableEq

/-- The quasar.config sub-object of the source configuration. -/
structure QuasarConfigOptions where
  dark : String
  notify : NotifyOptions
  deriving Repr, DecidableEq

/-- The quasar sub-object of the source configuration. -/
structure QuasarOptions where
  iconSet : String
  plugins : List String
  config : QuasarConfigOptions
  deriving Repr, DecidableEq

/-- The shape of the object literal passed to defineNuxtConfig in
src/nuxt.config.ts. -/
structure NuxtConfig where
  telemetry : Bool
  devtools : DevtoolsOptions
  ssr : Bool
  pages : Bool
  components : Bool
  srcDir : String
  css : List String
  modules : List String
  quasar : QuasarOptions
  deriving Repr, DecidableEq

/-- The object literal of src/nuxt.config.ts, field for field. -/
def nuxtConfig : NuxtConfig where
  telemetry := false
  devtools := { enabled := true }
  ssr := false
  pages := true
  components := true
  srcDir := "src-nuxt/"
  css := ["~/assets/sass/global.sass"]
  modules := ["nuxt-quasar-ui"]
  quasar :=
    { iconSet := "mdi-v5"
      plugins := ["Notify", "Dialog"]
      config :=
        { dark := "auto"
          notify :=
            { timeout := 2500
              position := "top-right"
              actions := [{ icon := "mdi-close", color := "white" }] } } }

/-- A raw input supplying only uiPlugin.theme. -/
def themeInput (s : String) : Value :=
  .obj [("uiPlugin", .obj [("theme", .str s)])]

/-- A raw input supplying only uiPlugin.notification.timeoutMillis. -/
def timeoutInput (v : Value) : Value :=
  .obj [("uiPlugin", .obj [("notification", .obj [("timeoutMillis", v)])])]

/-- A raw input supplying the two set-typed fields as plain sequences,
possibly with duplicates. -/
def setsInput (mods plugs : List String) : Value :=
  .obj [("enabledModules", .list (mods.map .str)),
        ("uiPlugin", .obj [("activePlugins", .list (plugs.map .str))])]

/-- True when an object level has a key outside its known-field list. -/
def hasBadKey (known : List String) : List (String × Value) → Bool
  | [] => false
  | (k, _) :: rest => !(known.contains k) || hasBadKey known rest

/-- True when an action element carries a key outside icon and color. -/
def actionUnknownKey (v : Value) : Bool :=
  match v with
  | .obj kvs => hasBadKey knownActionKeys kvs
  | _ => false

/-- True when a raw notification value contains, at any depth, a key that
is not a known field. -/
def notifUnknownKey (v : Value) : Bool :=
  match v with
  | .obj kvs =>
    hasBadKey knownNotifKeys kvs ||
      (match lookupKey kvs "actions" with
       | some (.list vs) => vs.any actionUnknownKey
       | _ => false)
  | _ => false

/-- True when a raw uiPlugin value contains, at any depth, a key that is
not a known field. -/
def uiUnknownKey (v : Value) : Bool :=
  match v with
  | .obj kvs =>
    hasBadKey knownUiKeys kvs ||
      (match lookupKey kvs "notification" with
       | some w => notifUnknownKey w
       | none => false)
  | _ => false

/-- True when a raw input contains, at any nesting depth, a key that does
not correspond to a known field of the target shape. -/
def containsUnknownKey (raw : Value) : Bool :=
  match raw with
  | .obj kvs =>
    hasBadKey knownTopKeys kvs ||
      (match lookupKey kvs "uiPlugin" with
       | some w => uiUnknownKey w
       | none => false)
  | _ => false

/-- The raw input of the section 8 scenario of the spec. -/
def scenarioInput : Value :=
  .obj [("sourceDirectory", .str "src-nuxt/"),
        ("enabledModules", .list [.str "quasar-ui"]),
        ("uiPlugin", .obj
          [("iconSet", .str "mdi-v5"),
           ("activePlugins", .list [.str "Notify", .str "Dialog"]),
           ("theme", .str "auto"),
           ("notification", .obj
             [("timeoutMillis", .int 2500),
              ("position", .str "topRight"),
              ("actions", .list
                [.obj [("icon", .str "close"), ("color", .str "white")]])])])]

/-- C4: resolving the section 8 scenario input against any framework
defaults whose renderMode is serverClient succeeds and yields the snapshot
whose renderMode comes from the defaults and whose every other field
present in the input is taken verbatim from the input (stylesheets, absent
from the input, stays at its default). -/
theorem scenario_resolution (d : ConfigurationSnapshot)
    (h : d.renderMode = RenderMode.serverClient) :
    resolve scenarioInput d = .ok
      { sourceDirectory := "src-nuxt/"
        stylesheets := d.stylesheets
        renderMode := .serverClient
        enabledModules := ["quasar-ui"]
        uiPlugin :=
          { iconSet := "mdi-v5"
            activePlugins := ["Notify", "Dialog"]
            theme := .auto
            notification :=
              { timeoutMillis := 2500
                position := .topRight
                actions := [⟨"close", "white"⟩] } } } := by
  rw [← h]
  rfl

/-- Witness for C4 at the concrete framework defaults. -/
theorem scenario_resolution_witness :
    frameworkDefaults.renderMode = RenderMode.serverClient ∧
    resolve scenarioInput frameworkDefaults = .ok
      { sourceDirectory := "src-nuxt/"
        stylesheets := frameworkDefaults.stylesheets
        renderMode := .serverClient
        enabledModules := ["quasar-ui"]
        uiPlugin :=
          { iconSet := "mdi-v5"
            activePlugins := ["Notify", "Dialog"]
            theme := .auto
            notification :=
              { timeoutMillis := 2500
                position := .topRight
                actions := [⟨"close", "white"⟩] } } } :=
  ⟨rfl, scenario_resolution frameworkDefaults rfl⟩

/-- C9: the resolver is deterministic — structurally identical inputs give
structurally equal results, resolution being a pure function. -/
theorem resolve_deterministic (raw₁ raw₂ : Value)
    (d₁ d₂ : ConfigurationSnapshot) (hraw : raw₁ = raw₂) (hd : d₁ = d₂) :
    resolve raw₁ d₁ = resolve raw₂ d₂ := by
  rw [hraw, hd]

/-- Witness for C9 at a concrete input. -/
theorem resolve_deterministic_witness :
    resolve scenarioInput frameworkDefaults = resolve scenarioInput frameworkDefaults :=
  resolve_deterministic scenarioInput scenarioInput frameworkDefaults frameworkDefaults rfl rfl

/-- C10: the source configuration object declares ssr = false, and its
notification defaults are position top-right with exactly one action,
icon mdi-close and color white. -/
theorem nuxtConfig_literal_values :
    nuxtConfig.ssr = false ∧
    nuxtConfig.quasar.config.notify.position = "top-right" ∧
    nuxtConfig.quasar.config.notify.actions = [{ icon := "mdi-close", color := "white" }] ∧
    nuxtConfig.quasar.config.notify.actions.length = 1 :=
  ⟨rfl, rfl, rfl, rfl⟩

theorem except_bind_ok {ε α β : Type} {x : Except ε α} {f : α → Except ε β} {b : β}
    (h : x >>= f = Except.ok b) : ∃ a, x = Except.ok a ∧ f a = Except.ok b := by
  cases x with
  | ok a => exact ⟨a, rfl, h⟩
  | error e => exact Except.noConfusion h

theorem except_ok_inj {ε α : Type} {a b : α}
    (h : (Except.ok a : Except ε α) = Except.ok b) : a = b := by
  cases h
  rfl

theorem resolveField_present {α : Type} {kvs : List (String × Value)} {k : String} {v : Value}
    (parse : Value → Except ConfigError α) (dflt : α) (h : lookupKey kvs k = some v) :
    resolveField kvs k parse dflt = parse v := by
  unfold resolveField
  rw [h]

theorem resolveField_absent {α : Type} {kvs : List (String × Value)} {k : String}
    (parse : Value → Except ConfigError α) (dflt : α) (h : lookupKey kvs k = none) :
    resolveField kvs k parse dflt = Except.ok dflt := by
  unfold resolveField
  rw [h]

theorem resolve_obj_ok {kvs : List (String × Value)} {d s : ConfigurationSnapshot}
    (h : resolve (.obj kvs) d = .ok s) :
    checkTopKeys kvs = .ok () ∧
    resolveField kvs "sourceDirectory" (parseString ["sourceDirectory"]) d.sourceDirectory
      = .ok s.sourceDirectory ∧
    resolveField kvs "stylesheets" (parseStringList ["stylesheets"]) d.stylesheets
      = .ok s.stylesheets ∧
    resolveField kvs "renderMode" (parseRenderMode ["renderMode"]) d.renderMode
      = .ok s.renderMode ∧
    resolveField kvs "enabledModules" (parseStringSet ["enabledModules"]) d.enabledModules
      = .ok s.enabledModules ∧
    resolveField kvs "uiPlugin" (fun w => resolveUiPlugin ["uiPlugin"] w d.uiPlugin) d.uiPlugin
      = .ok s.uiPlugin := by
  simp only [resolve] at h
  obtain ⟨u, hu, h⟩ := except_bind_ok h
  obtain ⟨sd, h1, h⟩ := except_bind_ok h
  obtain ⟨ss, h2, h⟩ := except_bind_ok h
  obtain ⟨rm, h3, h⟩ := except_bind_ok h
  obtain ⟨em, h4, h⟩ := except_bind_ok h
  obtain ⟨up, h5, h⟩ := except_bind_ok h
  cases h
  cases u
  exact ⟨hu, h1, h2, h3, h4, h5⟩

theorem resolveUiPlugin_obj_ok {path : List String} {ukvs : List (String × Value)}
    {d u : UiPluginConfig} (h : resolveUiPlugin path (.obj ukvs) d = .ok u) :
    resolveField ukvs "iconSet" (parseString (path ++ ["iconSet"])) d.iconSet
      = .ok u.iconSet ∧
    resolveField ukvs "activePlugins" (parseStringSet (path ++ ["activePlugins"])) d.activePlugins
      = .ok u.activePlugins ∧
    resolveField ukvs "theme" (parseTheme (path ++ ["theme"])) d.theme
      = .ok u.theme ∧
    resolveField ukvs "notification"
      (fun w => resolveNotification (path ++ ["notification"]) w d.notification) d.notification
      = .ok u.notification := by
  simp only [resolveUiPlugin] at h
  obtain ⟨is, h1, h⟩ := except_bind_ok h
  obtain ⟨ap, h2, h⟩ := except_bind_ok h
  obtain ⟨th, h3, h⟩ := except_bind_ok h
  obtain ⟨nf, h4, h⟩ := except_bind_ok h
  cases h
  exact ⟨h1, h2, h3, h4⟩

theorem resolveNotification_obj_ok {path : List String} {nkvs : List (String × Value)}
    {d n : NotificationDefaults} (h : resolveNotification path (.obj nkvs) d = .ok n) :
    resolveField nkvs "timeoutMillis" (parseTimeout (path ++ ["timeoutMillis"])) d.timeoutMillis
      = .ok n.timeoutMillis ∧
    resolveField nkvs "position" (parsePosition (path ++ ["position"])) d.position
      = .ok n.position ∧
    resolveField nkvs "actions" (parseActions (path ++ ["actions"])) d.actions
      = .ok n.actions := by
  simp only [resolveNotification] at h
  obtain ⟨t, h1, h⟩ := except_bind_ok h
  obtain ⟨p, h2, h⟩ := except_bind_ok h
  obtain ⟨a, h3, h⟩ := except_bind_ok h
  cases h
  exact ⟨h1, h2, h3⟩

/-- C1: every field present in raw with a valid value lands in the
snapshot exactly as parsed from raw, independent of the defaults; in
particular the sequence fields (stylesheets, notification.actions) and the
set fields (enabledModules, activePlugins) present in raw replace the
default sequence or set wholesale, with no element-wise merge. -/
theorem resolve_override_correctness
    (kvs : List (String × Value)) (d s : ConfigurationSnapshot)
    (h : resolve (.obj kvs) d = .ok s) :
    (∀ v x, lookupKey kvs "sourceDirectory" = some v →
      parseString ["sourceDirectory"] v = .ok x → s.sourceDirectory = x) ∧
    (∀ v x, lookupKey kvs "stylesheets" = some v →
      parseStringList ["stylesheets"] v = .ok x → s.stylesheets = x) ∧
    (∀ v x, lookupKey kvs "renderMode" = some v →
      parseRenderMode ["renderMode"] v = .ok x → s.renderMode = x) ∧
    (∀ v x, lookupKey kvs "enabledModules" = some v →
      parseStringSet ["enabledModules"] v = .ok x → s.enabledModules = x) ∧
    (∀ ukvs, lookupKey kvs "uiPlugin" = some (.obj ukvs) →
      (∀ v x, lookupKey ukvs "iconSet" = some v →
        parseString ["uiPlugin", "iconSet"] v = .ok x → s.uiPlugin.iconSet = x) ∧
      (∀ v x, lookupKey ukvs "activePlugins" = some v →
        parseStringSet ["uiPlugin", "activePlugins"] v = .ok x →
        s.uiPlugin.activePlugins = x) ∧
      (∀ v x, lookupKey ukvs "theme" = some v →
        parseTheme ["uiPlugin", "theme"] v = .ok x → s.uiPlugin.theme = x) ∧
      (∀ nkvs, lookupKey ukvs "notification" = some (.obj nkvs) →
        (∀ v x, lookupKey nkvs "timeoutMillis" = some v →
          parseTimeout ["uiPlugin", "notification", "timeoutMillis"] v = .ok x →
          s.uiPlugin.notification.timeoutMillis = x) ∧
        (∀ v x, lookupKey nkvs "position" = some v →
          parsePosition ["uiPlugin", "notification", "position"] v = .ok x →
          s.uiPlugin.notification.position = x) ∧
        (∀ v x, lookupKey nkvs "actions" = some v →
          parseActions ["uiPlugin", "notification", "actions"] v = .ok x →
          s.uiPlugin.notification.actions = x))) := by
  obtain ⟨-, h1, h2, h3, h4, h5⟩ := resolve_obj_ok h
  refine ⟨?_, ?_, ?_, ?_, ?_⟩
  · intro v x hl hp
    rw [resolveField_present _ _ hl, hp] at h1
    exact (except_ok_inj h1).symm
  · intro v x hl hp
    rw [resolveField_present _ _ hl, hp] at h2
    exact (except_ok_inj h2).symm
  · intro v x hl hp
    rw [resolveField_present _ _ hl, hp] at h3
    exact (except_ok_inj h3).symm
  · intro v x hl hp
    rw [resolveField_present _ _ hl, hp] at h4
    exact (except_ok_inj h4).symm
  · intro ukvs hu
    rw [resolveField_present _ _ hu] at h5
    obtain ⟨g1, g2, g3, g4⟩ := resolveUiPlugin_obj_ok h5
    simp only [List.cons_append, List.nil_append] at g1 g2 g3 g4
    refine ⟨?_, ?_, ?_, ?_⟩
    · intro v x hl hp
      rw [resolveField_present _ _ hl, hp] at g1
      exact (except_ok_inj g1).symm
    · intro v x hl hp
      rw [resolveField_present _ _ hl, hp] at g2
      exact (except_ok_inj g2).symm
    · intro v x hl hp
      rw [resolveField_present _ _ hl, hp] at g3
      exact (except_ok_inj g3).symm
    · intro nkvs hn
      rw [resolveField_present _ _ hn] at g4
      obtain ⟨k1, k2, k3⟩ := resolveNotification_obj_ok g4
      simp only [List.cons_append, List.nil_append] at k1 k2 k3
      refine ⟨?_, ?_, ?_⟩
      · intro v x hl hp
        rw [resolveField_present _ _ hl, hp] at k1
        exact (except_ok_inj k1).symm
      · intro v x hl hp
        rw [resolveField_present _ _ hl, hp] at k2
        exact (except_ok_inj k2).symm
      · intro v x hl hp
        rw [resolveField_present _ _ hl, hp] at k3
        exact (except_ok_inj k3).symm

/-- Witness for C1: a raw input supplying only stylesheets resolves to a
snapshot holding that stylesheet sequence verbatim. -/
theorem resolve_override_correctness_witness :
    ConfigurationSnapshot.stylesheets
      { frameworkDefaults with stylesheets := ["a.css"] } = ["a.css"] :=
  (resolve_override_correctness [("stylesheets", Value.list [Value.str "a.css"])]
    frameworkDefaults { frameworkDefaults with stylesheets := ["a.css"] } rfl).2.1
    (Value.list [Value.str "a.css"]) ["a.css"] rfl rfl

/-- C2: every field omitted from raw keeps exactly the value the defaults
snapshot holds for it, at the top level as well as inside the nested
uiPlugin and notification objects (a uiPlugin omitted wholesale keeps the
whole default uiPlugin, and likewise for notification). -/
theorem resolve_default_preservation
    (kvs : List (String × Value)) (d s : ConfigurationSnapshot)
    (h : resolve (.obj kvs) d = .ok s) :
    (lookupKey kvs "sourceDirectory" = none → s.sourceDirectory = d.sourceDirectory) ∧
    (lookupKey kvs "stylesheets" = none → s.stylesheets = d.stylesheets) ∧
    (lookupKey kvs "renderMode" = none → s.renderMode = d.renderMode) ∧
    (lookupKey kvs "enabledModules" = none → s.enabledModules = d.enabledModules) ∧
    (lookupKey kvs "uiPlugin" = none → s.uiPlugin = d.uiPlugin) ∧
    (∀ ukvs, lookupKey kvs "uiPlugin" = some (.obj ukvs) →
      (lookupKey ukvs "iconSet" = none → s.uiPlugin.iconSet = d.uiPlugin.iconSet) ∧
      (lookupKey ukvs "activePlugins" = none →
        s.uiPlugin.activePlugins = d.uiPlugin.activePlugins) ∧
      (lookupKey ukvs "theme" = none → s.uiPlugin.theme = d.uiPlugin.theme) ∧
      (lookupKey ukvs "notification" = none →
        s.uiPlugin.notification = d.uiPlugin.notification) ∧
      (∀ nkvs, lookupKey ukvs "notification" = some (.obj nkvs) →
        (lookupKey nkvs "timeoutMillis" = none →
          s.uiPlugin.notification.timeoutMillis = d.uiPlugin.notification.timeoutMillis) ∧
        (lookupKey nkvs "position" = none →
          s.uiPlugin.notification.position = d.uiPlugin.notification.position) ∧
        (lookupKey nkvs "actions" = none →
          s.uiPlugin.notification.actions = d.uiPlugin.notification.actions))) := by
  obtain ⟨-, h1, h2, h3, h4, h5⟩ := resolve_obj_ok h
  refine ⟨?_, ?_, ?_, ?_, ?_, ?_⟩
  · intro hl
    rw [resolveField_absent _ _ hl] at h1
    exact (except_ok_inj h1).symm
  · intro hl
    rw [resolveField_absent _ _ hl] at h2
    exact (except_ok_inj h2).symm
  · intro hl
    rw [resolveField_absent _ _ hl] at h3
    exact (except_ok_inj h3).symm
  · intro hl
    rw [resolveField_absent _ _ hl] at h4
    exact (except_ok_inj h4).symm
  · intro hl
    rw [resolveField_absent _ _ hl] at h5
    exact (except_ok_inj h5).symm
  · intro ukvs hu
    rw [resolveField_present _ _ hu] at h5
    obtain ⟨g1, g2, g3, g4⟩ := resolveUiPlugin_obj_ok h5
    refine ⟨?_, ?_, ?_, ?_, ?_⟩
    · intro hl
      rw [resolveField_absent _ _ hl] at g1
      exact (except_ok_inj g1).symm
    · intro hl
      rw [resolveField_absent _ _ hl] at g2
      exact (except_ok_inj g2).symm
    · intro hl
      rw [resolveField_absent _ _ hl] at g3
      exact (except_ok_inj g3).symm
    · intro hl
      rw [resolveField_absent _ _ hl] at g4
      exact (except_ok_inj g4).symm
    · intro nkvs hn
      rw [resolveField_present _ _ hn] at g4
      obtain ⟨k1, k2, k3⟩ := resolveNotification_obj_ok g4
      refine ⟨?_, ?_, ?_⟩
      · intro hl
        rw [resolveField_absent _ _ hl] at k1
        exact (except_ok_inj k1).symm
      · intro hl
        rw [resolveField_absent _ _ hl] at k2
        exact (except_ok_inj k2).symm
      · intro hl
        rw [resolveField_absent _ _ hl] at k3
        exact (except_ok_inj k3).symm

/-- Witness for C2: a raw input supplying only sourceDirectory leaves the
default stylesheets untouched. -/
theorem resolve_default_preservation_witness :
    ConfigurationSnapshot.stylesheets
      { frameworkDefaults with sourceDirectory := "other/" } = frameworkDefaults.stylesheets :=
  (resolve_default_preservation [("sourceDirectory", Value.str "other/")]
    frameworkDefaults { frameworkDefaults with sourceDirectory := "other/" } rfl).2.1 rfl


/-- C6: the theme enum field accepts exactly light, dark and auto — each
of the three resolves successfully to the corresponding variant — and any
other string fails resolution with InvalidEnumValueError carrying the
path, the offending value and the allowed set; the renderMode and
position enum parsers reject out-of-set values the same way. -/
theorem theme_enum_boundary (s : String) (d : ConfigurationSnapshot) :
    (resolve (themeInput "light") d =
      .ok { d with uiPlugin := { d.uiPlugin with theme := .light } }) ∧
    (resolve (themeInput "dark") d =
      .ok { d with uiPlugin := { d.uiPlugin with theme := .dark } }) ∧
    (resolve (themeInput "auto") d =
      .ok { d with uiPlugin := { d.uiPlugin with theme := .auto } }) ∧
    (s ≠ "light" → s ≠ "dark" → s ≠ "auto" →
      resolve (themeInput s) d =
        .error (.invalidEnumValueError ["uiPlugin", "theme"] s ["light", "dark", "auto"])) ∧
    (∀ p : List String, s ≠ "serverClient" → s ≠ "clientOnly" →
      parseRenderMode p (.str s) =
        .error (.invalidEnumValueError p s ["serverClient", "clientOnly"])) ∧
    (∀ p : List String, s ∉ positionLiterals →
      parsePosition p (.str s) = .error (.invalidEnumValueError p s positionLiterals)) := by
  refine ⟨rfl, rfl, rfl, ?_, ?_, ?_⟩
  · intro h1 h2 h3
    simp [themeInput, resolve, checkTopKeys, checkObjKeys, checkUiKeys, checkNotifKeys,
      knownTopKeys, knownUiKeys, knownNotifKeys, lookupKey, resolveField, resolveUiPlugin,
      resolveNotification, parseTheme, h1, h2, h3, Bind.bind, Except.bind]
  · intro p h1 h2
    simp [parseRenderMode, h1, h2]
  · intro p hmem
    simp only [positionLiterals, List.mem_cons, List.not_mem_nil, or_false, not_or] at hmem
    obtain ⟨q1, q2, q3, q4, q5, q6, q7, q8, q9⟩ := hmem
    simp [parsePosition, q1, q2, q3, q4, q5, q6, q7, q8, q9]

/-- Witness for C6: theme blue is rejected with the enum error. -/
theorem theme_enum_boundary_witness :
    resolve (themeInput "blue") frameworkDefaults =
      .error (.invalidEnumValueError ["uiPlugin", "theme"] "blue" ["light", "dark", "auto"]) :=
  (theme_enum_boundary "blue" frameworkDefaults).2.2.2.1
    (by decide) (by decide) (by decide)


/-- C5: a notification.timeoutMillis that is a negative integer or not an
integer at all fails resolution with InvalidTypeError, and every
non-negative integer n is accepted, resolving to timeoutMillis = n. -/
theorem timeout_validation (v : Value) (d : ConfigurationSnapshot) :
    ((∃ n : Int, v = .int n ∧ n < 0) ∨ (∀ n : Int, v ≠ .int n) →
      resolve (timeoutInput v) d =
        .error (.invalidTypeError ["uiPlugin", "notification", "timeoutMillis"]
          "non-negative integer")) ∧
    (∀ n : Int, 0 ≤ n →
      resolve (timeoutInput (.int n)) d =
        .ok { d with uiPlugin := { d.uiPlugin with notification :=
          { d.uiPlugin.notification with timeoutMillis := n.toNat } } }) := by
  refine ⟨?_, ?_⟩
  · intro h
    cases v with
    | int n =>
      have hn : n < 0 := by
        rcases h with ⟨m, hm, hneg⟩ | hni
        · injection hm with hm2
          subst hm2
          exact hneg
        · exact absurd rfl (hni n)
      have h0 : ¬ (0 ≤ n) := by omega
      simp [timeoutInput, resolve, checkTopKeys, checkObjKeys, checkUiKeys, checkNotifKeys,
        knownTopKeys, knownUiKeys, knownNotifKeys, lookupKey, resolveField, resolveUiPlugin,
        resolveNotification, parseTimeout, h0, Bind.bind, Except.bind]
    | str s => rfl
    | bool b => rfl
    | list vs => rfl
    | obj kvs => rfl
  · intro n h0
    simp [timeoutInput, resolve, checkTopKeys, checkObjKeys, checkUiKeys, checkNotifKeys,
      knownTopKeys, knownUiKeys, knownNotifKeys, lookupKey, resolveField, resolveUiPlugin,
      resolveNotification, parseTimeout, h0, Bind.bind, Except.bind]

/-- Witness for C5: timeoutMillis = -1 is rejected with InvalidTypeError. -/
theorem timeout_validation_witness :
    resolve (timeoutInput (.int (-1))) frameworkDefaults =
      .error (.invalidTypeError ["uiPlugin", "notification", "timeoutMillis"]
        "non-negative integer") :=
  (timeout_validation (.int (-1)) frameworkDefaults).1 (Or.inl ⟨-1, rfl, by decide⟩)

/-- C7: resolution is atomic and fail-fast: every call returns either a
snapshot or a single error, never both — on error no snapshot exists at
all — and when an input has several problems the returned error is the
first one detected: unknown keys are detected before value validation
(an input with both an unknown key and a bad enum reports the unknown
key), and within value validation fields are checked in schema order (an
input with a bad theme and a bad position reports the theme). -/
theorem resolve_fail_fast_atomic :
    (∀ (raw : Value) (d : ConfigurationSnapshot),
      (∃ s, resolve raw d = .ok s) ∨ (∃ e, resolve raw d = .error e)) ∧
    (∀ (raw : Value) (d s : ConfigurationSnapshot) (e : ConfigError),
      resolve raw d = .ok s → resolve raw d ≠ .error e) ∧
    (∀ d : ConfigurationSnapshot,
      resolve (.obj [("uiPlugin", .obj [("theme", .str "blue")]), ("bogus", .int 1)]) d =
        .error (.unknownKeyError ["bogus"])) ∧
    (∀ d : ConfigurationSnapshot,
      resolve (.obj [("uiPlugin", .obj [("theme", .str "blue"),
          ("notification", .obj [("position", .str "middle")])])]) d =
        .error (.invalidEnumValueError ["uiPlugin", "theme"] "blue"
          ["light", "dark", "auto"])) := by
  refine ⟨?_, ?_, ?_, ?_⟩
  · intro raw d
    cases h : resolve raw d with
    | ok s => exact Or.inl ⟨s, rfl⟩
    | error e => exact Or.inr ⟨e, rfl⟩
  · intro raw d s e hok
    rw [hok]
    intro hcon
    exact Except.noConfusion hcon
  · intro d
    rfl
  · intro d
    rfl

/-- Witness for C7: the empty raw input resolves to the defaults snapshot
and therefore to no error. -/
theorem resolve_fail_fast_atomic_witness :
    resolve (.obj []) frameworkDefaults ≠ .error (.unknownKeyError []) :=
  resolve_fail_fast_atomic.2.1 (.obj []) frameworkDefaults frameworkDefaults
    (.unknownKeyError []) rfl

theorem mem_dedupAcc {a : String} (seen l : List String) :
    a ∈ dedupAcc seen l ↔ a ∈ l ∧ a ∉ seen := by
  induction l generalizing seen with
  | nil => simp [dedupAcc]
  | cons x xs ih =>
    simp only [dedupAcc]
    by_cases hx : seen.contains x = true
    · rw [if_pos hx]
      have hxm : x ∈ seen := List.elem_iff.mp hx
      rw [ih]
      constructor
      · rintro ⟨hmem, hns⟩
        exact ⟨List.mem_cons_of_mem _ hmem, hns⟩
      · rintro ⟨hmem, hns⟩
        rcases List.mem_cons.mp hmem with rfl | hmem2
        · exact absurd hxm hns
        · exact ⟨hmem2, hns⟩
    · rw [if_neg hx]
      have hxm : x ∉ seen := fun hm => hx (List.elem_iff.mpr hm)
      simp only [List.mem_cons, ih]
      constructor
      · rintro (rfl | ⟨hmem, hns⟩)
        · exact ⟨Or.inl rfl, hxm⟩
        · exact ⟨Or.inr hmem, fun hs => hns (Or.inr hs)⟩
      · rintro ⟨rfl | hmem, hns⟩
        · exact Or.inl rfl
        · by_cases hax : a = x
          · exact Or.inl hax
          · exact Or.inr ⟨hmem, fun hs => hs.elim hax hns⟩

theorem nodup_dedupAcc (seen l : List String) : (dedupAcc seen l).Nodup := by
  induction l generalizing seen with
  | nil => simp [dedupAcc]
  | cons x xs ih =>
    simp only [dedupAcc]
    by_cases hx : seen.contains x = true
    · rw [if_pos hx]
      exact ih seen
    · rw [if_neg hx]
      refine List.nodup_cons.mpr ⟨?_, ih (x :: seen)⟩
      intro hmem
      exact ((mem_dedupAcc (x :: seen) xs).mp hmem).2 (List.mem_cons_self x seen)

theorem dedupAcc_sublist (seen l : List String) : List.Sublist (dedupAcc seen l) l := by
  induction l generalizing seen with
  | nil => simp [dedupAcc]
  | cons x xs ih =>
    simp only [dedupAcc]
    by_cases hx : seen.contains x = true
    · rw [if_pos hx]
      exact (ih seen).cons x
    · rw [if_neg hx]
      exact (ih (x :: seen)).cons₂ x

theorem mem_dedupFirst {a : String} (l : List String) :
    a ∈ dedupFirst l ↔ a ∈ l := by
  simp [dedupFirst, mem_dedupAcc]

theorem nodup_dedupFirst (l : List String) : (dedupFirst l).Nodup :=
  nodup_dedupAcc [] l

theorem dedupFirst_sublist (l : List String) : List.Sublist (dedupFirst l) l :=
  dedupAcc_sublist [] l

theorem parseStringElems_map (p : List String) (l : List String) :
    parseStringElems p (l.map Value.str) = .ok l := by
  induction l with
  | nil => rfl
  | cons s rest ih =>
    simp [parseStringElems, ih, Bind.bind, Except.bind]


/-- C8: enabledModules and uiPlugin.activePlugins are sets: any sequences
of strings, duplicates included, are accepted with no error, duplicate
entries collapse to a single element, the resulting fields have no
duplicates, and activation order is insertion order (each result is a
subsequence of its input with exactly the input's members). -/
theorem sets_dedup_insertion_order (mods plugs : List String) (d : ConfigurationSnapshot) :
    resolve (setsInput mods plugs) d =
      .ok { d with enabledModules := dedupFirst mods,
                   uiPlugin := { d.uiPlugin with activePlugins := dedupFirst plugs } } ∧
    (dedupFirst mods).Nodup ∧ (dedupFirst plugs).Nodup ∧
    List.Sublist (dedupFirst mods) mods ∧ List.Sublist (dedupFirst plugs) plugs ∧
    (∀ a, a ∈ dedupFirst mods ↔ a ∈ mods) ∧
    (∀ a, a ∈ dedupFirst plugs ↔ a ∈ plugs) := by
  refine ⟨?_, nodup_dedupFirst mods, nodup_dedupFirst plugs,
    dedupFirst_sublist mods, dedupFirst_sublist plugs,
    fun a => mem_dedupFirst mods, fun a => mem_dedupFirst plugs⟩
  have h1 : parseStringElems ["enabledModules"] (mods.map Value.str) = .ok mods :=
    parseStringElems_map _ _
  have h2 : parseStringElems ["uiPlugin", "activePlugins"] (plugs.map Value.str) = .ok plugs :=
    parseStringElems_map _ _
  simp [setsInput, resolve, checkTopKeys, checkObjKeys, checkUiKeys, checkNotifKeys,
    knownTopKeys, knownUiKeys, knownNotifKeys, lookupKey, resolveField, resolveUiPlugin,
    resolveNotification, parseStringSet, parseStringList, h1, h2, Bind.bind, Except.bind]






theorem except_error_bind {ε α β : Type} (e : ε) (f : α → Except ε β) :
    (Except.error e : Except ε α) >>= f = .error e := rfl

theorem except_ok_bind {ε α β : Type} (a : α) (f : α → Except ε β) :
    (Except.ok a : Except ε α) >>= f = f a := rfl

theorem exceptUnit_not_ok {x : Except ConfigError Unit} (h : x ≠ .ok ()) :
    ∃ e, x = .error e := by
  cases x with
  | ok u =>
    cases u
    exact absurd rfl h
  | error e => exact ⟨e, rfl⟩

theorem except_bind_error {ε α β : Type} {x : Except ε α} {f : α → Except ε β} {e : ε}
    (h : x >>= f = .error e) : x = .error e ∨ ∃ a, x = .ok a ∧ f a = .error e := by
  cases x with
  | ok a => exact Or.inr ⟨a, rfl, h⟩
  | error e₁ =>
    rw [except_error_bind] at h
    have he : e₁ = e := Except.error.inj h
    exact Or.inl (by rw [he])

theorem checkObjKeys_error {p known : List String} {kvs : List (String × Value)}
    {e : ConfigError} (h : checkObjKeys p known kvs = .error e) :
    ∃ q, e = .unknownKeyError q := by
  induction kvs with
  | nil => exact Except.noConfusion h
  | cons kv rest ih =>
    obtain ⟨k, v⟩ := kv
    simp only [checkObjKeys] at h
    split at h
    · exact ih h
    · exact ⟨p ++ [k], (Except.error.inj h).symm⟩

theorem checkActionKeys_error {p : List String} {v : Value} {e : ConfigError}
    (h : checkActionKeys p v = .error e) : ∃ q, e = .unknownKeyError q := by
  cases v with
  | obj kvs => exact checkObjKeys_error h
  | str s => exact Except.noConfusion h
  | int n => exact Except.noConfusion h
  | bool b => exact Except.noConfusion h
  | list vs => exact Except.noConfusion h

theorem checkActionsKeys_error {p : List String} {vs : List Value} {e : ConfigError} :
    ∀ {i : Nat}, checkActionsKeys p i vs = .error e → ∃ q, e = .unknownKeyError q := by
  induction vs with
  | nil =>
    intro i h
    exact Except.noConfusion h
  | cons v rest ih =>
    intro i h
    simp only [checkActionsKeys] at h
    rcases except_bind_error h with h₁ | ⟨u, hu, h₂⟩
    · exact checkActionKeys_error h₁
    · exact ih h₂

theorem checkNotifKeys_error {p : List String} {v : Value} {e : ConfigError}
    (h : checkNotifKeys p v = .error e) : ∃ q, e = .unknownKeyError q := by
  cases v with
  | obj kvs =>
    simp only [checkNotifKeys] at h
    rcases except_bind_error h with h₁ | ⟨u, hu, h₂⟩
    · exact checkObjKeys_error h₁
    · split at h₂
      all_goals first
        | exact checkActionsKeys_error h₂
        | exact Except.noConfusion h₂
  | str s => exact Except.noConfusion h
  | int n => exact Except.noConfusion h
  | bool b => exact Except.noConfusion h
  | list vs => exact Except.noConfusion h

theorem checkUiKeys_error {p : List String} {v : Value} {e : ConfigError}
    (h : checkUiKeys p v = .error e) : ∃ q, e = .unknownKeyError q := by
  cases v with
  | obj kvs =>
    simp only [checkUiKeys] at h
    rcases except_bind_error h with h₁ | ⟨u, hu, h₂⟩
    · exact checkObjKeys_error h₁
    · split at h₂
      all_goals first
        | exact checkNotifKeys_error h₂
        | exact Except.noConfusion h₂
  | str s => exact Except.noConfusion h
  | int n => exact Except.noConfusion h
  | bool b => exact Except.noConfusion h
  | list vs => exact Except.noConfusion h

theorem checkTopKeys_error {kvs : List (String × Value)} {e : ConfigError}
    (h : checkTopKeys kvs = .error e) : ∃ q, e = .unknownKeyError q := by
  simp only [checkTopKeys] at h
  rcases except_bind_error h with h₁ | ⟨u, hu, h₂⟩
  · exact checkObjKeys_error h₁
  · split at h₂
    all_goals first
      | exact checkUiKeys_error h₂
      | exact Except.noConfusion h₂

theorem checkObjKeys_ok {known : List String} {kvs : List (String × Value)}
    (p : List String) (h : hasBadKey known kvs = false) :
    checkObjKeys p known kvs = .ok () := by
  induction kvs with
  | nil => rfl
  | cons kv rest ih =>
    obtain ⟨k, v⟩ := kv
    simp only [hasBadKey] at h
    cases hc : known.contains k with
    | false =>
      rw [hc] at h
      simp at h
    | true =>
      rw [hc] at h
      simp only [Bool.not_true, Bool.false_or] at h
      simp only [checkObjKeys]
      rw [if_pos hc]
      exact ih h

theorem checkObjKeys_not_ok {known : List String} {kvs : List (String × Value)}
    (p : List String) (h : hasBadKey known kvs = true) :
    checkObjKeys p known kvs ≠ .ok () := by
  induction kvs with
  | nil => exact Bool.noConfusion h
  | cons kv rest ih =>
    obtain ⟨k, v⟩ := kv
    simp only [hasBadKey] at h
    cases hc : known.contains k with
    | true =>
      rw [hc] at h
      simp only [Bool.not_true, Bool.false_or] at h
      simp only [checkObjKeys]
      rw [if_pos hc]
      exact ih h
    | false =>
      simp only [checkObjKeys]
      rw [if_neg (fun hcon => Bool.noConfusion (hc.symm.trans hcon))]
      intro hcon
      exact Except.noConfusion hcon

theorem checkActionKeys_not_ok {p : List String} {v : Value}
    (h : actionUnknownKey v = true) : checkActionKeys p v ≠ .ok () := by
  cases v with
  | obj kvs => exact checkObjKeys_not_ok p h
  | str s => exact Bool.noConfusion h
  | int n => exact Bool.noConfusion h
  | bool b => exact Bool.noConfusion h
  | list vs => exact Bool.noConfusion h

theorem checkActionsKeys_not_ok {p : List String} {vs : List Value}
    (h : vs.any actionUnknownKey = true) :
    ∀ i : Nat, checkActionsKeys p i vs ≠ .ok () := by
  induction vs with
  | nil => exact Bool.noConfusion h
  | cons v rest ih =>
    intro i
    simp only [List.any_cons, Bool.or_eq_true] at h
    simp only [checkActionsKeys]
    rcases h with h | h
    · obtain ⟨e, he⟩ := exceptUnit_not_ok (checkActionKeys_not_ok h)
      rw [he, except_error_bind]
      intro hcon
      exact Except.noConfusion hcon
    · cases hc : checkActionKeys (p ++ [toString i]) v with
      | ok u =>
        cases u
        rw [except_ok_bind]
        exact ih h (i + 1)
      | error e =>
        rw [except_error_bind]
        intro hcon
        exact Except.noConfusion hcon

theorem checkNotifKeys_not_ok {p : List String} {v : Value}
    (h : notifUnknownKey v = true) : checkNotifKeys p v ≠ .ok () := by
  cases v with
  | obj kvs =>
    simp only [notifUnknownKey] at h
    simp only [checkNotifKeys]
    cases hb : hasBadKey knownNotifKeys kvs with
    | true =>
      obtain ⟨e, he⟩ := exceptUnit_not_ok (checkObjKeys_not_ok p hb)
      rw [he, except_error_bind]
      intro hcon
      exact Except.noConfusion hcon
    | false =>
      rw [checkObjKeys_ok p hb, except_ok_bind]
      rw [hb, Bool.false_or] at h
      cases hl : lookupKey kvs "actions" with
      | none =>
        rw [hl] at h
        exact Bool.noConfusion h
      | some w =>
        rw [hl] at h
        cases w with
        | list vs => exact checkActionsKeys_not_ok h 0
        | str s => exact Bool.noConfusion h
        | int n => exact Bool.noConfusion h
        | bool b => exact Bool.noConfusion h
        | obj okvs => exact Bool.noConfusion h
  | str s => exact Bool.noConfusion h
  | int n => exact Bool.noConfusion h
  | bool b => exact Bool.noConfusion h
  | list vs => exact Bool.noConfusion h

theorem checkUiKeys_not_ok {p : List String} {v : Value}
    (h : uiUnknownKey v = true) : checkUiKeys p v ≠ .ok () := by
  cases v with
  | obj kvs =>
    simp only [uiUnknownKey] at h
    simp only [checkUiKeys]
    cases hb : hasBadKey knownUiKeys kvs with
    | true =>
      obtain ⟨e, he⟩ := exceptUnit_not_ok (checkObjKeys_not_ok p hb)
      rw [he, except_error_bind]
      intro hcon
      exact Except.noConfusion hcon
    | false =>
      rw [checkObjKeys_ok p hb, except_ok_bind]
      rw [hb, Bool.false_or] at h
      cases hl : lookupKey kvs "notification" with
      | none =>
        rw [hl] at h
        exact Bool.noConfusion h
      | some w =>
        rw [hl] at h
        exact checkNotifKeys_not_ok h
  | str s => exact Bool.noConfusion h
  | int n => exact Bool.noConfusion h
  | bool b => exact Bool.noConfusion h
  | list vs => exact Bool.noConfusion h

theorem checkTopKeys_not_ok {kvs : List (String × Value)}
    (h : containsUnknownKey (.obj kvs) = true) : checkTopKeys kvs ≠ .ok () := by
  simp only [containsUnknownKey] at h
  simp only [checkTopKeys]
  cases hb : hasBadKey knownTopKeys kvs with
  | true =>
    obtain ⟨e, he⟩ := exceptUnit_not_ok (checkObjKeys_not_ok [] hb)
    rw [he, except_error_bind]
    intro hcon
    exact Except.noConfusion hcon
  | false =>
    rw [checkObjKeys_ok [] hb, except_ok_bind]
    rw [hb, Bool.false_or] at h
    cases hl : lookupKey kvs "uiPlugin" with
    | none =>
      rw [hl] at h
      exact Bool.noConfusion h
    | some w =>
      rw [hl] at h
      exact checkUiKeys_not_ok h

theorem resolve_check_error {kvs : List (String × Value)} {d : ConfigurationSnapshot}
    {e : ConfigError} (h : checkTopKeys kvs = .error e) :
    resolve (.obj kvs) d = .error e := by
  simp only [resolve]
  rw [h, except_error_bind]

/-- C3: any raw input containing, at any nesting depth, a key that does
not correspond to a known field of the target shape makes resolution
return an UnknownKeyError with some path, so no snapshot is produced. -/
theorem unknown_key_rejection (raw : Value) (d : ConfigurationSnapshot)
    (h : containsUnknownKey raw = true) :
    ∃ p, resolve raw d = .error (.unknownKeyError p) := by
  cases raw with
  | obj kvs =>
    obtain ⟨e, he⟩ := exceptUnit_not_ok (checkTopKeys_not_ok h)
    obtain ⟨q, hq⟩ := checkTopKeys_error he
    subst hq
    exact ⟨q, resolve_check_error he⟩
  | str s => exact Bool.noConfusion h
  | int n => exact Bool.noConfusion h
  | bool b => exact Bool.noConfusion h
  | list vs => exact Bool.noConfusion h

/-- Witness for C3: a top-level key bogus is unknown and rejected. -/
theorem unknown_key_rejection_witness :
    containsUnknownKey (.obj [("bogus", .int 1)]) = true ∧
    ∃ p, resolve (.obj [("bogus", .int 1)]) frameworkDefaults =
      .error (.unknownKeyError p) :=
  ⟨rfl, unknown_key_rejection (.obj [("bogus", .int 1)]) frameworkDefaults rfl⟩
